import Mathlib

/-!
# Tutorial17_MSAA: sample-count negotiation and multisampled target lifecycle

A shallow embedding of `src/Tutorials/Tutorial17_MSAA/src/Tutorial17_MSAA.cpp`.

* The members of the class `Tutorial17_MSAA` become the fields of a structure and every
  method becomes a function on that structure.
* The rendering engine is consumed through its interface only.  A device is the log of the
  texture descriptions it was asked to create, the immediate context is the list of calls a
  method issues, and reference-counted pointers are `Option`s (`none` is the null pointer).
* `Uint8` and `Uint32` values are natural numbers: the program only copies, compares and
  masks them, so no operation can wrap.
* The float constants of the program (`0.125f`, `1.f`) are exact binary fractions and are
  kept as rationals; the animation matrices are floating point and are left out.
* The host application is a sequence of events delivered to the object after `Initialize`:
  `UpdateUI` with the input of the user, `WindowResize` after the swap chain was resized, and
  `Render`.
-/

namespace Diligent

/-! ## Engine interface types -/

/-- Engine enumeration of texture formats, kept as its numeric code. -/
abbrev TEXTURE_FORMAT := Nat

/-- Resource dimensions used by the program. -/
inductive RESOURCE_DIMENSION where
  | RESOURCE_DIM_UNDEFINED
  | RESOURCE_DIM_TEX_2D
  deriving DecidableEq, Repr

/-- Bind flags used by the program; a flag word is the list of the flags or-ed together. -/
inductive BIND_FLAGS where
  | BIND_SHADER_RESOURCE
  | BIND_RENDER_TARGET
  | BIND_DEPTH_STENCIL
  deriving DecidableEq, Repr

/-- Texture view types used by the program. -/
inductive TEXTURE_VIEW_TYPE where
  | TEXTURE_VIEW_SHADER_RESOURCE
  | TEXTURE_VIEW_RENDER_TARGET
  | TEXTURE_VIEW_DEPTH_STENCIL
  deriving DecidableEq, Repr

/-- Depth and stencil part of an optimized clear value. -/
structure DepthStencilClearValue where
  Depth : ℚ
  Stencil : Nat
  deriving DecidableEq

/-- Optimized clear value of a texture description. -/
structure OptimizedClearValue where
  Format : TEXTURE_FORMAT
  Color : List ℚ
  DepthStencil : DepthStencilClearValue
  deriving DecidableEq

/-- The fields of `TextureDesc` that the program assigns (`Type_` is the field `Type`). -/
structure TextureDesc where
  Name : String
  Type_ : RESOURCE_DIMENSION
  Width : Nat
  Height : Nat
  MipLevels : Nat
  Format : TEXTURE_FORMAT
  SampleCount : Nat
  BindFlags : List BIND_FLAGS
  ClearValue : OptimizedClearValue
  deriving DecidableEq

/-- A texture object: the description it was created with and its creation index, which
tells textures with equal descriptions apart. -/
structure ITexture where
  Id : Nat
  Desc : TextureDesc
  deriving DecidableEq

/-- A texture view; `GetTexture` is the projection `pTexture`. -/
structure ITextureView where
  ViewType : TEXTURE_VIEW_TYPE
  pTexture : ITexture
  deriving DecidableEq

/-- The render device, seen as the log of the descriptions passed to `CreateTexture`,
oldest first. -/
structure IRenderDevice where
  Created : List TextureDesc
  deriving DecidableEq

/-- Engine call `IRenderDevice::CreateTexture`: the device records the request and returns a
texture that carries the requested description.  Creation failure is fatal in the engine and
is not part of this model. -/
def IRenderDevice.CreateTexture (dev : IRenderDevice) (Desc : TextureDesc) :
    IRenderDevice × ITexture :=
  ({ Created := dev.Created ++ [Desc] }, { Id := dev.Created.length, Desc := Desc })

/-- Engine call `ITexture::GetDefaultView`. -/
def ITexture.GetDefaultView (t : ITexture) (ViewType : TEXTURE_VIEW_TYPE) : ITextureView :=
  { ViewType := ViewType, pTexture := t }

/-- The fields of `SwapChainDesc` that the program reads. -/
structure SwapChainDesc where
  Width : Nat
  Height : Nat
  ColorBufferFormat : TEXTURE_FORMAT
  DepthBufferFormat : TEXTURE_FORMAT
  deriving DecidableEq, Repr

/-- The fields of `TextureFormatInfoExt` that the program reads. -/
structure TextureFormatInfoExt where
  Name : String
  SampleCounts : Nat
  deriving DecidableEq, Repr

/-- A pipeline state object, seen as the arguments it was created from. -/
structure IPipelineState where
  RTVFormat : TEXTURE_FORMAT
  DSVFormat : TEXTURE_FORMAT
  VSFilePath : String
  PSFilePath : String
  SampleCount : Nat
  deriving DecidableEq, Repr

/-- A shader resource binding object, seen as the pipeline state it was created from. -/
structure IShaderResourceBinding where
  pPSO : IPipelineState
  deriving DecidableEq, Repr

/-- Helper `TexturedCube::CreatePipelineState` of the samples' common code, which is not
among the sources: the pipeline state it returns is created for the formats, shader files
and sample count it is given. -/
def TexturedCube.CreatePipelineState (RTVFormat DSVFormat : TEXTURE_FORMAT)
    (VSFilePath PSFilePath : String) (SampleCount : Nat) : IPipelineState :=
  { RTVFormat := RTVFormat, DSVFormat := DSVFormat, VSFilePath := VSFilePath,
    PSFilePath := PSFilePath, SampleCount := SampleCount }

/-- The calls a method issues on the immediate device context, in program order. -/
inductive DeviceContextCall where
  | SetRenderTargets (NumRenderTargets : Nat) (pRenderTarget pDepthStencil : Option ITextureView)
  | ClearRenderTarget (pView : Option ITextureView) (RGBA : List ℚ)
  | ClearDepthStencil (pView : Option ITextureView) (fDepth : ℚ) (Stencil : Nat)
  | MapBuffer
  | UnmapBuffer
  | SetVertexBuffers
  | SetIndexBuffer
  | SetPipelineState (pPipelineState : Option IPipelineState)
  | CommitShaderResources (pShaderResourceBinding : Option IShaderResourceBinding)
  | DrawIndexed (NumIndices NumInstances : Nat)
  | ResolveTextureSubresource (pSrcTexture : ITexture)
  deriving DecidableEq

/-- Recognises a `ResolveTextureSubresource` call. -/
def DeviceContextCall.isResolve : DeviceContextCall → Bool
  | .ResolveTextureSubresource _ => true
  | _ => false

/-! ## The class `Tutorial17_MSAA` -/

/-- The members of `Tutorial17_MSAA` that the modelled methods read or write.
`DepthBufferFormat` is the class constant of that name.  `m_SampleCount` is a `Uint8` (the
type of the combo entries); the program stores only 1, 2, 4 and 8 in it.  The program tests
only bits 0x02, 0x04 and 0x08 of `m_SupportedSampleCounts`, so the width of that member does
not matter. -/
structure Tutorial17_MSAA where
  m_pDevice : IRenderDevice
  m_pSwapChain : SwapChainDesc
  DepthBufferFormat : TEXTURE_FORMAT
  m_SupportedSampleCounts : Nat
  m_SampleCount : Nat
  m_pCubePSO : Option IPipelineState
  m_pCubeSRB : Option IShaderResourceBinding
  m_pMSColorRTV : Option ITextureView
  m_pMSDepthDSV : Option ITextureView
  m_bRotateGrid : Bool
  deriving DecidableEq

/-- Method `CreateCubePSO` (lines 42-68). -/
def Tutorial17_MSAA.CreateCubePSO (self : Tutorial17_MSAA) : Tutorial17_MSAA :=
  let pso := TexturedCube.CreatePipelineState self.m_pSwapChain.ColorBufferFormat
    self.DepthBufferFormat "cube.vsh" "cube.psh" self.m_SampleCount
  { self with m_pCubePSO := some pso, m_pCubeSRB := some { pPSO := pso } }

/-- Method `CreateMSAARenderTarget` (lines 133-176). -/
def Tutorial17_MSAA.CreateMSAARenderTarget (self : Tutorial17_MSAA) : Tutorial17_MSAA :=
  if self.m_SampleCount = 1 then
    self
  else
    let ColorDesc : TextureDesc :=
      { Name := "Multisampled render target"
        Type_ := .RESOURCE_DIM_TEX_2D
        Width := self.m_pSwapChain.Width
        Height := self.m_pSwapChain.Height
        MipLevels := 1
        Format := self.m_pSwapChain.ColorBufferFormat
        SampleCount := self.m_SampleCount
        BindFlags := [.BIND_SHADER_RESOURCE, .BIND_RENDER_TARGET]
        -- `DepthStencil` keeps the engine default of a fresh description
        ClearValue :=
          { Format := self.m_pSwapChain.ColorBufferFormat
            Color := [1 / 8, 1 / 8, 1 / 8, 1]
            DepthStencil := { Depth := 1, Stencil := 0 } } }
    let (dev1, pColor) := self.m_pDevice.CreateTexture ColorDesc
    let colorRTV := pColor.GetDefaultView .TEXTURE_VIEW_RENDER_TARGET
    let DepthDesc : TextureDesc :=
      { ColorDesc with
        Name := "Multisampled depth buffer"
        Format := self.DepthBufferFormat
        ClearValue :=
          { ColorDesc.ClearValue with
            Format := self.DepthBufferFormat
            DepthStencil := { Depth := 1, Stencil := 0 } }
        BindFlags := [.BIND_SHADER_RESOURCE, .BIND_DEPTH_STENCIL] }
    let (dev2, pDepth) := dev1.CreateTexture DepthDesc
    let depthDSV := pDepth.GetDefaultView .TEXTURE_VIEW_DEPTH_STENCIL
    { self with m_pDevice := dev2, m_pMSColorRTV := some colorRTV, m_pMSDepthDSV := some depthDSV }

/-- Method `WindowResize` (lines 128-131); the arguments are not used. -/
def Tutorial17_MSAA.WindowResize (self : Tutorial17_MSAA) (_Width _Height : Nat) :
    Tutorial17_MSAA :=
  self.CreateMSAARenderTarget

/-- What the user does to the settings window during one `UpdateUI`: whether the window body
is shown (the result of `ImGui::Begin`), the index of the combo entry picked, if any, and
whether the checkbox was clicked. -/
structure UIInput where
  Begin : Bool
  Combo : Option Nat
  Checkbox : Bool
  deriving DecidableEq, Repr

/-- Helper `ImGui::Combo` of `ImGuiUtils.h`, which is not among the sources, as the call site
uses it: when the user picks entry `i` of `items` the value of that entry is stored in the
current item and the result is `true`; otherwise the current item is kept and the result is
`false`. -/
def ImGui.Combo (current_item : Nat) (items : List (Nat × String)) (pick : Option Nat) :
    Nat × Bool :=
  match pick with
  | none => (current_item, false)
  | some i =>
    match items[i]? with
    | some item => (item.1, true)
    | none => (current_item, false)

/-- The entries `UpdateUI` stores in `ComboItems` (lines 75-83): the first `NumItems` slots of
the array, in order. -/
def Tutorial17_MSAA.ComboItems (self : Tutorial17_MSAA) : List (Nat × String) :=
  let ComboItems : List (Nat × String) := [(1, "1")]
  let ComboItems :=
    if self.m_SupportedSampleCounts &&& 0x02 ≠ 0 then ComboItems ++ [(2, "2")] else ComboItems
  let ComboItems :=
    if self.m_SupportedSampleCounts &&& 0x04 ≠ 0 then ComboItems ++ [(4, "4")] else ComboItems
  let ComboItems :=
    if self.m_SupportedSampleCounts &&& 0x08 ≠ 0 then ComboItems ++ [(8, "8")] else ComboItems
  ComboItems

/-- Method `UpdateUI` (lines 70-93). -/
def Tutorial17_MSAA.UpdateUI (self : Tutorial17_MSAA) (ui : UIInput) : Tutorial17_MSAA :=
  if ui.Begin then
    let (SampleCount, changed) := ImGui.Combo self.m_SampleCount self.ComboItems ui.Combo
    let self := { self with m_SampleCount := SampleCount }
    let self := if changed then self.CreateCubePSO.CreateMSAARenderTarget else self
    { self with m_bRotateGrid := if ui.Checkbox then !self.m_bRotateGrid else self.m_bRotateGrid }
  else
    self

/-- The warning of line 112. -/
def MultisamplingWarning (ColorFmtInfo DepthFmtInfo : TextureFormatInfoExt) : String :=
  ColorFmtInfo.Name ++ " + " ++ DepthFmtInfo.Name ++
    " pair does not allow multisampling on this device"

/-- Method `Initialize` (lines 95-126) on a new object: the result is the object and the
warnings logged.  `ColorFmtInfo` and `DepthFmtInfo` are the answers of the device to the two
`GetTextureFormatInfoExt` queries.  `DepthBufferFormat` and `bRotateGrid` are the values the
class declaration gives to the constant `DepthBufferFormat` and to `m_bRotateGrid`; all
smart pointers of a new object are null. -/
def Tutorial17_MSAA.Initialize (pDevice : IRenderDevice) (pSwapChain : SwapChainDesc)
    (ColorFmtInfo DepthFmtInfo : TextureFormatInfoExt) (DepthBufferFormat : TEXTURE_FORMAT)
    (bRotateGrid : Bool) : Tutorial17_MSAA × List String :=
  let SupportedSampleCounts := ColorFmtInfo.SampleCounts &&& DepthFmtInfo.SampleCounts
  let (SampleCount, log) : Nat × List String :=
    if SupportedSampleCounts &&& 0x04 ≠ 0 then
      (4, [])
    else if SupportedSampleCounts &&& 0x02 ≠ 0 then
      (2, [])
    else
      (1, [MultisamplingWarning ColorFmtInfo DepthFmtInfo])
  let self : Tutorial17_MSAA :=
    { m_pDevice := pDevice
      m_pSwapChain := pSwapChain
      DepthBufferFormat := DepthBufferFormat
      m_SupportedSampleCounts := SupportedSampleCounts
      m_SampleCount := SampleCount
      m_pCubePSO := none
      m_pCubeSRB := none
      m_pMSColorRTV := none
      m_pMSDepthDSV := none
      m_bRotateGrid := bRotateGrid }
  (self.CreateCubePSO, log)

/-- Method `Render` (lines 179-232): the calls issued on the immediate context, or `none`
when the null pointer `m_pMSColorRTV` is dereferenced at line 230.  No modelled member is
written; the write of the transformation matrix into the constant buffer appears as the
`MapBuffer` and `UnmapBuffer` calls of the `MapHelper`. -/
def Tutorial17_MSAA.Render (self : Tutorial17_MSAA) : Option (List DeviceContextCall) :=
  let ClearColor : List ℚ := [1 / 8, 1 / 8, 1 / 8, 1]
  let (setTargets, pRTV, pDSV) :
      DeviceContextCall × Option ITextureView × Option ITextureView :=
    if self.m_SampleCount > 1 then
      (.SetRenderTargets 1 self.m_pMSColorRTV self.m_pMSDepthDSV,
        self.m_pMSColorRTV, self.m_pMSDepthDSV)
    else
      (.SetRenderTargets 0 none none, none, none)
  let calls : List DeviceContextCall :=
    [ setTargets,
      .ClearRenderTarget pRTV ClearColor,
      .ClearDepthStencil pDSV 1 0,
      .MapBuffer,
      .UnmapBuffer,
      .SetVertexBuffers,
      .SetIndexBuffer,
      .SetPipelineState self.m_pCubePSO,
      .CommitShaderResources self.m_pCubeSRB,
      .DrawIndexed 36 49 ]
  if self.m_SampleCount > 1 then
    match self.m_pMSColorRTV with
    | some rtv => some (calls ++ [.ResolveTextureSubresource rtv.pTexture])
    | none => none
  else
    some calls

/-- Number of `ResolveTextureSubresource` calls in a list of context calls. -/
def NumResolveCalls (calls : List DeviceContextCall) : Nat :=
  calls.countP DeviceContextCall.isResolve

/-! ## The host loop -/

/-- What the host application does with the sample after `Initialize`. -/
inductive HostEvent where
  | UpdateUI (ui : UIInput)
  | WindowResize (Width Height : Nat)
  | Render
  deriving DecidableEq, Repr

/-- One host event.  A resize notification follows the resize of the swap chain to the new
output size, so `WindowResize` runs with the swap chain already at `Width` x `Height`.  A
frame whose `Render` dereferences a null pointer has no successor state. -/
def HostStep (s : Tutorial17_MSAA) : HostEvent → Option Tutorial17_MSAA
  | .UpdateUI ui => some (s.UpdateUI ui)
  | .WindowResize Width Height =>
    some (Tutorial17_MSAA.WindowResize
      { s with m_pSwapChain := { s.m_pSwapChain with Width := Width, Height := Height } }
      Width Height)
  | .Render => (s.Render).map (fun _ => s)

/-- A sequence of host events, oldest first. -/
def HostRun (s : Tutorial17_MSAA) : List HostEvent → Option Tutorial17_MSAA
  | [] => some s
  | e :: es => (HostStep s e).bind (fun s1 => HostRun s1 es)

/-- Both multisampled views are held (neither pointer is null). -/
def Tutorial17_MSAA.HoldsTargets (self : Tutorial17_MSAA) : Prop :=
  self.m_pMSColorRTV.isSome = true ∧ self.m_pMSDepthDSV.isSome = true

instance (self : Tutorial17_MSAA) : Decidable self.HoldsTargets := by
  unfold Tutorial17_MSAA.HoldsTargets; infer_instance

/-- Neither multisampled view is held (both pointers are null). -/
def Tutorial17_MSAA.HoldsNoTargets (self : Tutorial17_MSAA) : Prop :=
  self.m_pMSColorRTV = none ∧ self.m_pMSDepthDSV = none

instance (self : Tutorial17_MSAA) : Decidable self.HoldsNoTargets := by
  unfold Tutorial17_MSAA.HoldsNoTargets; infer_instance

/-- Whether the host event `e`, arriving in state `s`, runs `CreateMSAARenderTarget`: every
resize notification does, and so does an `UpdateUI` in which the user picks an entry of the
sample-count selector. -/
def HostEvent.RebuildsTargets (s : Tutorial17_MSAA) : HostEvent → Bool
  | .UpdateUI ui => ui.Begin && (ImGui.Combo s.m_SampleCount s.ComboItems ui.Combo).2
  | .WindowResize _ _ => true
  | .Render => false

/-- The pipeline state held was created for the current sample count. -/
def Tutorial17_MSAA.PSOMatchesSampleCount (self : Tutorial17_MSAA) : Prop :=
  ∃ pso : IPipelineState, self.m_pCubePSO = some pso ∧ pso.SampleCount = self.m_SampleCount

/-- The textures of the held views were created by the device. -/
def Tutorial17_MSAA.TargetsCreated (self : Tutorial17_MSAA) : Prop :=
  (∀ c, self.m_pMSColorRTV = some c → c.pTexture.Id < self.m_pDevice.Created.length) ∧
  (∀ d, self.m_pMSDepthDSV = some d → d.pTexture.Id < self.m_pDevice.Created.length)

/-- In multisampled mode the held views are views of textures with the current sample count
and the size of the swap chain. -/
def Tutorial17_MSAA.TargetsCurrent (self : Tutorial17_MSAA) : Prop :=
  1 < self.m_SampleCount →
    (∀ c, self.m_pMSColorRTV = some c →
      c.pTexture.Desc.SampleCount = self.m_SampleCount ∧
      c.pTexture.Desc.Width = self.m_pSwapChain.Width ∧
      c.pTexture.Desc.Height = self.m_pSwapChain.Height) ∧
    (∀ d, self.m_pMSDepthDSV = some d →
      d.pTexture.Desc.SampleCount = self.m_SampleCount ∧
      d.pTexture.Desc.Width = self.m_pSwapChain.Width ∧
      d.pTexture.Desc.Height = self.m_pSwapChain.Height)

/-! ## Concrete states -/

/-- A format that reports the capability mask `SampleCounts`. -/
def exampleFormat (SampleCounts : Nat) : TextureFormatInfoExt :=
  { Name := "FMT", SampleCounts := SampleCounts }

/-- An 800 x 600 swap chain. -/
def exampleSwapChain : SwapChainDesc :=
  { Width := 800, Height := 600, ColorBufferFormat := 1, DepthBufferFormat := 2 }

/-- The object right after `Initialize` when both formats report the mask `mask`. -/
def exampleInit (mask : Nat) : Tutorial17_MSAA :=
  (Tutorial17_MSAA.Initialize { Created := [] } exampleSwapChain (exampleFormat mask)
    (exampleFormat mask) 2 false).1

/-- The user picks entry `i` of the sample-count selector. -/
def examplePick (i : Nat) : UIInput :=
  { Begin := true, Combo := some i, Checkbox := false }

/-- The state after `Initialize` with mask `0b0110` and a resize notification at 800 x 600:
sample count 4 and a pair of 4-sample targets. -/
def exampleHeld : Tutorial17_MSAA :=
  Tutorial17_MSAA.WindowResize (exampleInit 0b0110) 800 600

/-- The state `exampleHeld` after the user picked the entry "1". -/
def exampleSingle : Tutorial17_MSAA :=
  exampleHeld.UpdateUI (examplePick 0)

/-- The state `exampleSingle` with the swap chain resized to 1024 x 768 and the resize
notification delivered. -/
def exampleStale : Tutorial17_MSAA :=
  Tutorial17_MSAA.WindowResize
    { exampleSingle with
      m_pSwapChain := { exampleSingle.m_pSwapChain with Width := 1024, Height := 768 } }
    1024 768

/-- The state `exampleHeld` after the user picked the entry "2". -/
def exampleTwo : Tutorial17_MSAA :=
  exampleHeld.UpdateUI (examplePick 1)

/-! ## Bit masks -/

/-- Masking with a single bit leaves that bit or nothing. -/
theorem and_two_pow_eq (x k : Nat) :
    x &&& 2 ^ k = if x.testBit k = true then 2 ^ k else 0 := by
  apply Nat.eq_of_testBit_eq
  intro i
  rw [Nat.testBit_and, Nat.testBit_two_pow]
  by_cases hki : k = i
  · subst hki
    by_cases h : x.testBit k = true
    · simp [h]
    · simp [h]
  · by_cases h : x.testBit k = true
    · simp [h, hki, Nat.testBit_two_pow]
    · simp [h, hki]

/-- The test `x & 0x02` of the program succeeds exactly when bit 1 of `x` is set. -/
theorem and_0x02_ne_zero (x : Nat) : x &&& 0x02 ≠ 0 ↔ x.testBit 1 = true := by
  have h := and_two_pow_eq x 1
  norm_num at h
  rw [h]
  by_cases hb : x.testBit 1 = true <;> simp [hb]

/-- The test `x & 0x04` of the program succeeds exactly when bit 2 of `x` is set. -/
theorem and_0x04_ne_zero (x : Nat) : x &&& 0x04 ≠ 0 ↔ x.testBit 2 = true := by
  have h := and_two_pow_eq x 2
  norm_num at h
  rw [h]
  by_cases hb : x.testBit 2 = true <;> simp [hb]

/-- The test `x & 0x08` of the program succeeds exactly when bit 3 of `x` is set. -/
theorem and_0x08_ne_zero (x : Nat) : x &&& 0x08 ≠ 0 ↔ x.testBit 3 = true := by
  have h := and_two_pow_eq x 3
  norm_num at h
  rw [h]
  by_cases hb : x.testBit 3 = true <;> simp [hb]

/-! ## Elementary facts about the methods -/

/-- Creating the pipeline state leaves the sample count and the targets alone. -/
theorem CreateCubePSO_fields (s : Tutorial17_MSAA) :
    s.CreateCubePSO.m_SampleCount = s.m_SampleCount ∧
    s.CreateCubePSO.m_SupportedSampleCounts = s.m_SupportedSampleCounts ∧
    s.CreateCubePSO.m_pSwapChain = s.m_pSwapChain ∧
    s.CreateCubePSO.m_pDevice = s.m_pDevice ∧
    s.CreateCubePSO.m_pMSColorRTV = s.m_pMSColorRTV ∧
    s.CreateCubePSO.m_pMSDepthDSV = s.m_pMSDepthDSV :=
  ⟨rfl, rfl, rfl, rfl, rfl, rfl⟩

/-- With sample count 1 `CreateMSAARenderTarget` returns at line 136. -/
theorem CreateMSAARenderTarget_of_one (s : Tutorial17_MSAA) (h : s.m_SampleCount = 1) :
    s.CreateMSAARenderTarget = s := by
  unfold Tutorial17_MSAA.CreateMSAARenderTarget
  rw [if_pos h]

/-- Members `CreateMSAARenderTarget` never writes. -/
theorem CreateMSAARenderTarget_fields (s : Tutorial17_MSAA) :
    s.CreateMSAARenderTarget.m_SampleCount = s.m_SampleCount ∧
    s.CreateMSAARenderTarget.m_SupportedSampleCounts = s.m_SupportedSampleCounts ∧
    s.CreateMSAARenderTarget.m_pSwapChain = s.m_pSwapChain ∧
    s.CreateMSAARenderTarget.m_pCubePSO = s.m_pCubePSO := by
  unfold Tutorial17_MSAA.CreateMSAARenderTarget
  split_ifs
  · exact ⟨rfl, rfl, rfl, rfl⟩
  · exact ⟨rfl, rfl, rfl, rfl⟩

/-- With a sample count other than 1 `CreateMSAARenderTarget` creates two textures, the
colour texture first, and stores a view of each. -/
theorem CreateMSAARenderTarget_of_ne_one (s : Tutorial17_MSAA) (h : s.m_SampleCount ≠ 1) :
    ∃ c d : ITextureView,
      s.CreateMSAARenderTarget.m_pMSColorRTV = some c ∧
      s.CreateMSAARenderTarget.m_pMSDepthDSV = some d ∧
      c.ViewType = .TEXTURE_VIEW_RENDER_TARGET ∧
      d.ViewType = .TEXTURE_VIEW_DEPTH_STENCIL ∧
      c.pTexture.Id = s.m_pDevice.Created.length ∧
      d.pTexture.Id = s.m_pDevice.Created.length + 1 ∧
      s.CreateMSAARenderTarget.m_pDevice.Created =
        s.m_pDevice.Created ++ [c.pTexture.Desc, d.pTexture.Desc] ∧
      c.pTexture.Desc.SampleCount = s.m_SampleCount ∧
      c.pTexture.Desc.Width = s.m_pSwapChain.Width ∧
      c.pTexture.Desc.Height = s.m_pSwapChain.Height ∧
      d.pTexture.Desc.SampleCount = s.m_SampleCount ∧
      d.pTexture.Desc.Width = s.m_pSwapChain.Width ∧
      d.pTexture.Desc.Height = s.m_pSwapChain.Height := by
  unfold Tutorial17_MSAA.CreateMSAARenderTarget
  rw [if_neg h]
  refine ⟨_, _, rfl, rfl, rfl, rfl, rfl, ?_, ?_, rfl, rfl, rfl, rfl, rfl, rfl⟩
  · simp [IRenderDevice.CreateTexture, ITexture.GetDefaultView]
  · simp [IRenderDevice.CreateTexture, ITexture.GetDefaultView]

/-- The rotation flag is not written by `CreateMSAARenderTarget`. -/
theorem CreateMSAARenderTarget_rotate (s : Tutorial17_MSAA) :
    s.CreateMSAARenderTarget.m_bRotateGrid = s.m_bRotateGrid := by
  unfold Tutorial17_MSAA.CreateMSAARenderTarget
  split_ifs <;> rfl

/-- The values of the combo entries, by the three tests of lines 78-83. -/
theorem ComboItems_values (s : Tutorial17_MSAA) :
    s.ComboItems.map Prod.fst =
      1 :: (if s.m_SupportedSampleCounts &&& 0x02 ≠ 0 then [2] else []) ++
        (if s.m_SupportedSampleCounts &&& 0x04 ≠ 0 then [4] else []) ++
        (if s.m_SupportedSampleCounts &&& 0x08 ≠ 0 then [8] else []) := by
  unfold Tutorial17_MSAA.ComboItems
  split_ifs <;> rfl

/-- The sample count after `UpdateUI` when the user picks an entry of the selector. -/
theorem UpdateUI_pick_m_SampleCount (s : Tutorial17_MSAA) (ui : UIInput) (i : Nat)
    (item : Nat × String) (hB : ui.Begin = true) (hC : ui.Combo = some i)
    (hi : s.ComboItems[i]? = some item) :
    (s.UpdateUI ui).m_SampleCount = item.1 := by
  unfold Tutorial17_MSAA.UpdateUI
  simp only [hB, hC, ImGui.Combo, hi, if_true]
  exact (CreateMSAARenderTarget_fields _).1

/-- `UpdateUI` when the user picks the entry `item` of the selector: lines 84-90. -/
theorem UpdateUI_pick (s : Tutorial17_MSAA) (ui : UIInput) (i : Nat) (item : Nat × String)
    (hB : ui.Begin = true) (hC : ui.Combo = some i) (hi : s.ComboItems[i]? = some item) :
    s.UpdateUI ui =
      { Tutorial17_MSAA.CreateMSAARenderTarget
          (Tutorial17_MSAA.CreateCubePSO { s with m_SampleCount := item.1 }) with
        m_bRotateGrid := if ui.Checkbox = true then !s.m_bRotateGrid else s.m_bRotateGrid } := by
  unfold Tutorial17_MSAA.UpdateUI
  simp only [hB, hC, ImGui.Combo, hi, if_true]
  have hr := CreateMSAARenderTarget_rotate
    (Tutorial17_MSAA.CreateCubePSO { s with m_SampleCount := item.1 })
  rw [hr]
  rfl

/-- `UpdateUI` either toggles at most the rotation flag, or stores the value of a selector
entry in `m_SampleCount`, runs `CreateCubePSO` and `CreateMSAARenderTarget`, and then sets
the rotation flag. -/
theorem UpdateUI_cases (s : Tutorial17_MSAA) (ui : UIInput) :
    ((ui.Begin && (ImGui.Combo s.m_SampleCount s.ComboItems ui.Combo).2) = false ∧
      ∃ b : Bool, s.UpdateUI ui = { s with m_bRotateGrid := b }) ∨
    ((ui.Begin && (ImGui.Combo s.m_SampleCount s.ComboItems ui.Combo).2) = true ∧
      ∃ (n : Nat) (b : Bool), n ∈ s.ComboItems.map Prod.fst ∧
        s.UpdateUI ui =
          { Tutorial17_MSAA.CreateMSAARenderTarget
              (Tutorial17_MSAA.CreateCubePSO { s with m_SampleCount := n }) with
            m_bRotateGrid := b }) := by
  by_cases hB : ui.Begin = true
  · cases hC : ui.Combo with
    | none =>
      left
      refine ⟨by simp [ImGui.Combo, hC], ?_⟩
      refine ⟨if ui.Checkbox = true then !s.m_bRotateGrid else s.m_bRotateGrid, ?_⟩
      unfold Tutorial17_MSAA.UpdateUI
      simp only [hB, hC, ImGui.Combo, if_true]
      rfl
    | some i =>
      cases hi : s.ComboItems[i]? with
      | none =>
        left
        refine ⟨by simp [ImGui.Combo, hC, hi], ?_⟩
        refine ⟨if ui.Checkbox = true then !s.m_bRotateGrid else s.m_bRotateGrid, ?_⟩
        unfold Tutorial17_MSAA.UpdateUI
        simp only [hB, hC, ImGui.Combo, hi, if_true]
        rfl
      | some item =>
        right
        refine ⟨by simp [ImGui.Combo, hC, hi, hB], item.1, _, ?_,
          UpdateUI_pick s ui i item hB hC hi⟩
        exact List.mem_map_of_mem _ (List.getElem?_mem hi)
  · left
    refine ⟨by simp [hB], s.m_bRotateGrid, ?_⟩
    unfold Tutorial17_MSAA.UpdateUI
    simp only [hB]
    rfl

/-- In multisampled mode with a colour view held, `Render` returns and ends with the one
resolve call of the frame. -/
theorem Render_multisampled (s : Tutorial17_MSAA) (c : ITextureView)
    (hn : 1 < s.m_SampleCount) (hc : s.m_pMSColorRTV = some c) :
    ∃ calls, s.Render = some calls ∧ NumResolveCalls calls = 1 ∧
      .ResolveTextureSubresource c.pTexture ∈ calls ∧
      ∀ p, DeviceContextCall.SetPipelineState p ∈ calls → p = s.m_pCubePSO := by
  unfold Tutorial17_MSAA.Render
  simp only [gt_iff_lt, hn, if_true, hc]
  refine ⟨_, rfl, ?_, ?_, ?_⟩
  · rfl
  · simp
  · intro p hp
    simpa using hp

/-- Outside multisampled mode `Render` returns and issues no resolve call. -/
theorem Render_direct (s : Tutorial17_MSAA) (hn : ¬ 1 < s.m_SampleCount) :
    ∃ calls, s.Render = some calls ∧ NumResolveCalls calls = 0 ∧
      ∀ p, DeviceContextCall.SetPipelineState p ∈ calls → p = s.m_pCubePSO := by
  unfold Tutorial17_MSAA.Render
  simp only [gt_iff_lt, hn, if_false]
  refine ⟨_, rfl, ?_, ?_⟩
  · rfl
  · intro p hp
    simpa using hp

/-- Every `SetPipelineState` call of `Render` binds the pipeline state held. -/
theorem Render_pipeline (s : Tutorial17_MSAA) (calls : List DeviceContextCall)
    (h : s.Render = some calls) (p : Option IPipelineState)
    (hp : DeviceContextCall.SetPipelineState p ∈ calls) : p = s.m_pCubePSO := by
  by_cases hn : 1 < s.m_SampleCount
  · cases hc : s.m_pMSColorRTV with
    | none =>
      unfold Tutorial17_MSAA.Render at h
      simp [hn, hc] at h
    | some c =>
      obtain ⟨calls1, h1, _, _, hall⟩ := Render_multisampled s c hn hc
      rw [h1] at h
      cases h
      exact hall p hp
  · obtain ⟨calls1, h1, _, hall⟩ := Render_direct s hn
    rw [h1] at h
    cases h
    exact hall p hp

/-- The empty run. -/
theorem HostRun_nil (s : Tutorial17_MSAA) : HostRun s [] = some s := rfl

/-- A run starts with its first event. -/
theorem HostRun_cons (s : Tutorial17_MSAA) (e : HostEvent) (es : List HostEvent) :
    HostRun s (e :: es) = (HostStep s e).bind (fun s1 => HostRun s1 es) := rfl

/-- A property kept by every host step is kept by every run of host events. -/
theorem HostRun_invariant (P : Tutorial17_MSAA → Prop)
    (hstep : ∀ s e s1, P s → HostStep s e = some s1 → P s1) :
    ∀ (evs : List HostEvent) (s s1 : Tutorial17_MSAA), P s → HostRun s evs = some s1 → P s1 := by
  intro evs
  induction evs with
  | nil =>
    intro s s1 hP h
    rw [HostRun_nil, Option.some.injEq] at h
    exact h ▸ hP
  | cons e es ih =>
    intro s s1 hP h
    rw [HostRun_cons] at h
    cases hs : HostStep s e with
    | none =>
      rw [hs] at h
      cases h
    | some s2 =>
      rw [hs, Option.some_bind] at h
      exact ih s2 s1 (hstep s e s2 hP hs) h

/-- A run of two sequences of host events is the run of the second from where the first
ends. -/
theorem HostRun_append (pre post : List HostEvent) (s s1 : Tutorial17_MSAA)
    (h : HostRun s pre = some s1) : HostRun s (pre ++ post) = HostRun s1 post := by
  induction pre generalizing s with
  | nil =>
    rw [HostRun_nil, Option.some.injEq] at h
    subst h
    rfl
  | cons e es ih =>
    rw [List.cons_append, HostRun_cons]
    rw [HostRun_cons] at h
    cases hs : HostStep s e with
    | none =>
      rw [hs] at h
      cases h
    | some s2 =>
      rw [hs, Option.some_bind] at h
      rw [Option.some_bind]
      exact ih s2 h

/-- A run without `Render` events never stops. -/
theorem HostRun_isSome_of_no_Render (evs : List HostEvent) (s : Tutorial17_MSAA)
    (h : HostEvent.Render ∉ evs) : (HostRun s evs).isSome = true := by
  induction evs generalizing s with
  | nil => rfl
  | cons e es ih =>
    have hes : HostEvent.Render ∉ es := fun hm => h (List.mem_cons_of_mem _ hm)
    cases e with
    | UpdateUI ui => exact ih _ hes
    | WindowResize w h1 => exact ih _ hes
    | Render => exact absurd (List.mem_cons_self _ _) h

/-- `CreateCubePSO` creates the pipeline state for the current sample count. -/
theorem PSOMatchesSampleCount_CreateCubePSO (s : Tutorial17_MSAA) :
    s.CreateCubePSO.PSOMatchesSampleCount :=
  ⟨_, rfl, rfl⟩

/-- `CreateMSAARenderTarget` keeps the pipeline state and the sample count. -/
theorem PSOMatchesSampleCount_CreateMSAARenderTarget (s : Tutorial17_MSAA)
    (h : s.PSOMatchesSampleCount) : s.CreateMSAARenderTarget.PSOMatchesSampleCount := by
  obtain ⟨pso, h1, h2⟩ := h
  obtain ⟨f1, _, _, f4⟩ := CreateMSAARenderTarget_fields s
  exact ⟨pso, f4.trans h1, h2.trans f1.symm⟩

/-- Every host step keeps the pipeline state matched to the sample count. -/
theorem PSOMatchesSampleCount_step (s : Tutorial17_MSAA) (e : HostEvent) (s1 : Tutorial17_MSAA)
    (h : s.PSOMatchesSampleCount) (hs : HostStep s e = some s1) :
    s1.PSOMatchesSampleCount := by
  cases e with
  | UpdateUI ui =>
    simp only [HostStep, Option.some.injEq] at hs
    subst hs
    rcases UpdateUI_cases s ui with ⟨_, b, hb⟩ | ⟨_, n, b, _, hb⟩
    · rw [hb]
      exact h
    · rw [hb]
      exact PSOMatchesSampleCount_CreateMSAARenderTarget _
        (PSOMatchesSampleCount_CreateCubePSO _)
  | WindowResize w h1 =>
    simp only [HostStep, Option.some.injEq] at hs
    subst hs
    exact PSOMatchesSampleCount_CreateMSAARenderTarget _ h
  | Render =>
    simp only [HostStep, Option.map_eq_some'] at hs
    obtain ⟨_, _, rfl⟩ := hs
    exact h

/-- After `CreateMSAARenderTarget` a target pair is held whenever the sample count exceeds
one. -/
theorem HoldsTargets_CreateMSAARenderTarget (s : Tutorial17_MSAA)
    (hn : 1 < s.CreateMSAARenderTarget.m_SampleCount) :
    s.CreateMSAARenderTarget.HoldsTargets := by
  rw [(CreateMSAARenderTarget_fields s).1] at hn
  obtain ⟨c, d, hc, hd, _⟩ := CreateMSAARenderTarget_of_ne_one s (by omega)
  exact ⟨by rw [hc]; rfl, by rw [hd]; rfl⟩

/-- Every host step that runs `CreateMSAARenderTarget` leaves a target pair held whenever the
sample count exceeds one. -/
theorem HoldsTargets_rebuild_step (s : Tutorial17_MSAA) (e : HostEvent) (s1 : Tutorial17_MSAA)
    (he : e.RebuildsTargets s = true) (hs : HostStep s e = some s1)
    (hn : 1 < s1.m_SampleCount) : s1.HoldsTargets := by
  cases e with
  | UpdateUI ui =>
    simp only [HostStep, Option.some.injEq] at hs
    subst hs
    rcases UpdateUI_cases s ui with ⟨hf, _⟩ | ⟨_, n, b, _, hb⟩
    · simp only [HostEvent.RebuildsTargets] at he
      rw [he] at hf
      cases hf
    · rw [hb] at hn ⊢
      exact HoldsTargets_CreateMSAARenderTarget _ hn
  | WindowResize w h1 =>
    simp only [HostStep, Option.some.injEq] at hs
    subst hs
    exact HoldsTargets_CreateMSAARenderTarget _ hn
  | Render => cases he

/-- Every host step keeps the property that a target pair is held whenever the sample count
exceeds one. -/
theorem HoldsTargets_step (s : Tutorial17_MSAA) (e : HostEvent) (s1 : Tutorial17_MSAA)
    (h : 1 < s.m_SampleCount → s.HoldsTargets) (hs : HostStep s e = some s1) :
    1 < s1.m_SampleCount → s1.HoldsTargets := by
  intro hn
  by_cases he : e.RebuildsTargets s = true
  · exact HoldsTargets_rebuild_step s e s1 he hs hn
  · cases e with
    | UpdateUI ui =>
      simp only [HostStep, Option.some.injEq] at hs
      subst hs
      rcases UpdateUI_cases s ui with ⟨_, b, hb⟩ | ⟨ht, _⟩
      · rw [hb] at hn ⊢
        exact h hn
      · exact absurd ht he
    | WindowResize w h1 => exact absurd rfl he
    | Render =>
      simp only [HostStep, Option.map_eq_some'] at hs
      obtain ⟨_, _, rfl⟩ := hs
      exact h hn

/-- `CreateMSAARenderTarget` keeps the held textures among those the device created and
leaves the held views current. -/
theorem TargetsCurrent_CreateMSAARenderTarget (s : Tutorial17_MSAA) (h : s.TargetsCreated) :
    s.CreateMSAARenderTarget.TargetsCreated ∧ s.CreateMSAARenderTarget.TargetsCurrent := by
  by_cases h1 : s.m_SampleCount = 1
  · rw [CreateMSAARenderTarget_of_one s h1]
    refine ⟨h, ?_⟩
    intro hn
    omega
  · obtain ⟨c, d, hc, hd, _, _, g5, g6, g7, g8, g9, g10, g11, g12, g13⟩ :=
      CreateMSAARenderTarget_of_ne_one s h1
    obtain ⟨f1, _, f3, _⟩ := CreateMSAARenderTarget_fields s
    refine ⟨⟨?_, ?_⟩, ?_⟩
    · intro c1 hc1
      rw [hc, Option.some.injEq] at hc1
      subst hc1
      rw [g7, g5, List.length_append]
      simp
    · intro d1 hd1
      rw [hd, Option.some.injEq] at hd1
      subst hd1
      rw [g7, g6, List.length_append]
      simp
    · intro _
      rw [f1, f3]
      refine ⟨?_, ?_⟩
      · intro c1 hc1
        rw [hc, Option.some.injEq] at hc1
        subst hc1
        exact ⟨g8, g9, g10⟩
      · intro d1 hd1
        rw [hd, Option.some.injEq] at hd1
        subst hd1
        exact ⟨g11, g12, g13⟩

/-- Every host step keeps the held textures among those the device created and the held
views current. -/
theorem TargetsCurrent_step (s : Tutorial17_MSAA) (e : HostEvent) (s1 : Tutorial17_MSAA)
    (h : s.TargetsCreated ∧ s.TargetsCurrent) (hs : HostStep s e = some s1) :
    s1.TargetsCreated ∧ s1.TargetsCurrent := by
  cases e with
  | UpdateUI ui =>
    simp only [HostStep, Option.some.injEq] at hs
    subst hs
    rcases UpdateUI_cases s ui with ⟨_, b, hb⟩ | ⟨_, n, b, _, hb⟩
    · rw [hb]
      exact h
    · rw [hb]
      exact TargetsCurrent_CreateMSAARenderTarget
        (Tutorial17_MSAA.CreateCubePSO { s with m_SampleCount := n }) h.1
  | WindowResize w h1 =>
    simp only [HostStep, Option.some.injEq] at hs
    subst hs
    exact TargetsCurrent_CreateMSAARenderTarget
      { s with m_pSwapChain := { s.m_pSwapChain with Width := w, Height := h1 } } h.1
  | Render =>
    simp only [HostStep, Option.map_eq_some'] at hs
    obtain ⟨_, _, rfl⟩ := hs
    exact h

/-- In every state reached from `Initialize` the held textures were created by the device,
and in multisampled mode the held views have the current sample count and the size of the
swap chain. -/
theorem HostRun_TargetsCurrent (pDevice : IRenderDevice) (pSwapChain : SwapChainDesc)
    (ColorFmtInfo DepthFmtInfo : TextureFormatInfoExt) (DepthBufferFormat : TEXTURE_FORMAT)
    (bRotateGrid : Bool) (evs : List HostEvent) (s : Tutorial17_MSAA)
    (h : HostRun (Tutorial17_MSAA.Initialize pDevice pSwapChain ColorFmtInfo DepthFmtInfo
      DepthBufferFormat bRotateGrid).1 evs = some s) :
    s.TargetsCreated ∧ s.TargetsCurrent := by
  refine HostRun_invariant (fun t => t.TargetsCreated ∧ t.TargetsCurrent) TargetsCurrent_step
    evs _ s ?_ h
  refine ⟨⟨?_, ?_⟩, ?_⟩
  · intro c hc
    cases hc
  · intro d hd
    cases hd
  · intro _
    exact ⟨fun c hc => (by cases hc), fun d hd => (by cases hd)⟩

/-- The sample count `Initialize` stores, as the program computes it. -/
theorem Initialize_m_SampleCount (pDevice : IRenderDevice) (pSwapChain : SwapChainDesc)
    (ColorFmtInfo DepthFmtInfo : TextureFormatInfoExt) (DepthBufferFormat : TEXTURE_FORMAT)
    (bRotateGrid : Bool) :
    (Tutorial17_MSAA.Initialize pDevice pSwapChain ColorFmtInfo DepthFmtInfo DepthBufferFormat
        bRotateGrid).1.m_SampleCount =
      if (ColorFmtInfo.SampleCounts &&& DepthFmtInfo.SampleCounts) &&& 0x04 ≠ 0 then 4
      else if (ColorFmtInfo.SampleCounts &&& DepthFmtInfo.SampleCounts) &&& 0x02 ≠ 0 then 2
      else 1 := by
  unfold Tutorial17_MSAA.Initialize
  simp only [Tutorial17_MSAA.CreateCubePSO]
  split_ifs <;> rfl

/-- The warnings `Initialize` logs, as the program computes them. -/
theorem Initialize_log (pDevice : IRenderDevice) (pSwapChain : SwapChainDesc)
    (ColorFmtInfo DepthFmtInfo : TextureFormatInfoExt) (DepthBufferFormat : TEXTURE_FORMAT)
    (bRotateGrid : Bool) :
    (Tutorial17_MSAA.Initialize pDevice pSwapChain ColorFmtInfo DepthFmtInfo DepthBufferFormat
        bRotateGrid).2 =
      if (ColorFmtInfo.SampleCounts &&& DepthFmtInfo.SampleCounts) &&& 0x04 ≠ 0 then []
      else if (ColorFmtInfo.SampleCounts &&& DepthFmtInfo.SampleCounts) &&& 0x02 ≠ 0 then []
      else [MultisamplingWarning ColorFmtInfo DepthFmtInfo] := by
  unfold Tutorial17_MSAA.Initialize
  simp only [Tutorial17_MSAA.CreateCubePSO]
  split_ifs <;> rfl

/-! ## Sample-count negotiation -/

/-- Claim C1: for all capability masks of the colour and the depth format, the sample count
stored by `Initialize` is 4 if bit 0x04 of their intersection is set, otherwise 2 if bit 0x02
is set, otherwise 1; two masks `0b1110` give 4. -/
theorem C1_Initialize_sample_count (pDevice : IRenderDevice) (pSwapChain : SwapChainDesc)
    (ColorFmtInfo DepthFmtInfo : TextureFormatInfoExt) (DepthBufferFormat : TEXTURE_FORMAT)
    (bRotateGrid : Bool) :
    (Tutorial17_MSAA.Initialize pDevice pSwapChain ColorFmtInfo DepthFmtInfo DepthBufferFormat
        bRotateGrid).1.m_SampleCount =
      (if (ColorFmtInfo.SampleCounts &&& DepthFmtInfo.SampleCounts).testBit 2 = true then 4
       else if (ColorFmtInfo.SampleCounts &&& DepthFmtInfo.SampleCounts).testBit 1 = true then 2
       else 1) ∧
    (ColorFmtInfo.SampleCounts = 0b1110 → DepthFmtInfo.SampleCounts = 0b1110 →
      (Tutorial17_MSAA.Initialize pDevice pSwapChain ColorFmtInfo DepthFmtInfo DepthBufferFormat
        bRotateGrid).1.m_SampleCount = 4) := by
  rw [Initialize_m_SampleCount]
  simp only [and_0x04_ne_zero, and_0x02_ne_zero]
  refine ⟨trivial, ?_⟩
  intro hC hD
  rw [hC, hD]
  decide

/-- Witness for C1: a colour and a depth format that both report `0b1110`. -/
theorem C1_Initialize_sample_count_witness :
    (Tutorial17_MSAA.Initialize { Created := [] } exampleSwapChain (exampleFormat 0b1110)
        (exampleFormat 0b1110) 2 false).1.m_SampleCount = 4 :=
  (C1_Initialize_sample_count { Created := [] } exampleSwapChain (exampleFormat 0b1110)
    (exampleFormat 0b1110) 2 false).2 rfl rfl

/-- Claim C7: for all capability masks the sample count stored by `Initialize` is 1, 2 or 4,
it is never 8 (whatever bit 0x08 of the intersection is), and when it is not 1 its bit is set
in the intersection of the two masks. -/
theorem C7_Initialize_sample_count_range (pDevice : IRenderDevice)
    (pSwapChain : SwapChainDesc) (ColorFmtInfo DepthFmtInfo : TextureFormatInfoExt)
    (DepthBufferFormat : TEXTURE_FORMAT) (bRotateGrid : Bool) :
    ((Tutorial17_MSAA.Initialize pDevice pSwapChain ColorFmtInfo DepthFmtInfo
        DepthBufferFormat bRotateGrid).1.m_SampleCount = 1 ∨
      (Tutorial17_MSAA.Initialize pDevice pSwapChain ColorFmtInfo DepthFmtInfo
        DepthBufferFormat bRotateGrid).1.m_SampleCount = 2 ∨
      (Tutorial17_MSAA.Initialize pDevice pSwapChain ColorFmtInfo DepthFmtInfo
        DepthBufferFormat bRotateGrid).1.m_SampleCount = 4) ∧
    (Tutorial17_MSAA.Initialize pDevice pSwapChain ColorFmtInfo DepthFmtInfo
        DepthBufferFormat bRotateGrid).1.m_SampleCount ≠ 8 ∧
    ((Tutorial17_MSAA.Initialize pDevice pSwapChain ColorFmtInfo DepthFmtInfo
        DepthBufferFormat bRotateGrid).1.m_SampleCount ≠ 1 →
      (ColorFmtInfo.SampleCounts &&& DepthFmtInfo.SampleCounts) &&&
        (Tutorial17_MSAA.Initialize pDevice pSwapChain ColorFmtInfo DepthFmtInfo
          DepthBufferFormat bRotateGrid).1.m_SampleCount =
        (Tutorial17_MSAA.Initialize pDevice pSwapChain ColorFmtInfo DepthFmtInfo
          DepthBufferFormat bRotateGrid).1.m_SampleCount) := by
  rw [Initialize_m_SampleCount]
  generalize ColorFmtInfo.SampleCounts &&& DepthFmtInfo.SampleCounts = m
  have h4 := and_two_pow_eq m 2
  have h2 := and_two_pow_eq m 1
  norm_num at h4 h2
  simp only [and_0x04_ne_zero, and_0x02_ne_zero]
  by_cases b4 : m.testBit 2 = true
  · simp [b4, h4]
  · by_cases b2 : m.testBit 1 = true
    · simp [b4, b2, h2]
    · simp [b4, b2]

/-- Witness for C7: both formats report `0b1110`, so 8 samples are supported and 4 is chosen,
and bit 0x04 is in the intersection. -/
theorem C7_Initialize_sample_count_range_witness :
    (exampleInit 0b1110).m_SampleCount ≠ 1 ∧
    (0b1110 &&& 0b1110) &&& (exampleInit 0b1110).m_SampleCount =
      (exampleInit 0b1110).m_SampleCount :=
  ⟨by decide,
    (C7_Initialize_sample_count_range { Created := [] } exampleSwapChain (exampleFormat 0b1110)
      (exampleFormat 0b1110) 2 false).2.2 (by decide)⟩

/-- Claim C8: `Initialize` always returns; it logs either nothing or the one warning made of
the names of the two formats and the text " pair does not allow multisampling on this
device"; the warning is logged exactly when the intersection of the masks has neither bit
0x02 nor bit 0x04, which is exactly when the stored sample count is 1; two masks `0b0001`
give the count 1 and the warning. -/
theorem C8_Initialize_warning (pDevice : IRenderDevice) (pSwapChain : SwapChainDesc)
    (ColorFmtInfo DepthFmtInfo : TextureFormatInfoExt) (DepthBufferFormat : TEXTURE_FORMAT)
    (bRotateGrid : Bool) :
    ((Tutorial17_MSAA.Initialize pDevice pSwapChain ColorFmtInfo DepthFmtInfo DepthBufferFormat
        bRotateGrid).2 = [] ∨
      (Tutorial17_MSAA.Initialize pDevice pSwapChain ColorFmtInfo DepthFmtInfo DepthBufferFormat
        bRotateGrid).2 =
        [ColorFmtInfo.Name ++ " + " ++ DepthFmtInfo.Name ++
          " pair does not allow multisampling on this device"]) ∧
    ((Tutorial17_MSAA.Initialize pDevice pSwapChain ColorFmtInfo DepthFmtInfo DepthBufferFormat
        bRotateGrid).2 =
        [ColorFmtInfo.Name ++ " + " ++ DepthFmtInfo.Name ++
          " pair does not allow multisampling on this device"] ↔
      ((ColorFmtInfo.SampleCounts &&& DepthFmtInfo.SampleCounts).testBit 1 = false ∧
        (ColorFmtInfo.SampleCounts &&& DepthFmtInfo.SampleCounts).testBit 2 = false)) ∧
    ((Tutorial17_MSAA.Initialize pDevice pSwapChain ColorFmtInfo DepthFmtInfo DepthBufferFormat
        bRotateGrid).2 =
        [ColorFmtInfo.Name ++ " + " ++ DepthFmtInfo.Name ++
          " pair does not allow multisampling on this device"] ↔
      (Tutorial17_MSAA.Initialize pDevice pSwapChain ColorFmtInfo DepthFmtInfo DepthBufferFormat
        bRotateGrid).1.m_SampleCount = 1) ∧
    (ColorFmtInfo.SampleCounts = 0b0001 → DepthFmtInfo.SampleCounts = 0b0001 →
      (Tutorial17_MSAA.Initialize pDevice pSwapChain ColorFmtInfo DepthFmtInfo DepthBufferFormat
          bRotateGrid).1.m_SampleCount = 1 ∧
        (Tutorial17_MSAA.Initialize pDevice pSwapChain ColorFmtInfo DepthFmtInfo
          DepthBufferFormat bRotateGrid).2 =
          [ColorFmtInfo.Name ++ " + " ++ DepthFmtInfo.Name ++
            " pair does not allow multisampling on this device"]) := by
  rw [Initialize_m_SampleCount, Initialize_log]
  simp only [MultisamplingWarning, and_0x04_ne_zero, and_0x02_ne_zero]
  refine ⟨?_, ?_, ?_, ?_⟩
  · split_ifs <;> simp
  · by_cases b4 : (ColorFmtInfo.SampleCounts &&& DepthFmtInfo.SampleCounts).testBit 2 = true
    · simp [b4]
    · by_cases b2 : (ColorFmtInfo.SampleCounts &&& DepthFmtInfo.SampleCounts).testBit 1 = true
      · simp [b4, b2]
      · simp [b4, b2]
  · split_ifs <;> simp
  · intro hC hD
    rw [hC, hD]
    have e : (0b0001 &&& 0b0001 : Nat) = 1 := by decide
    have b2 : Nat.testBit 1 2 = false := by decide
    have b1 : Nat.testBit 1 1 = false := by decide
    simp only [e, b1, b2]
    exact ⟨rfl, rfl⟩

/-- Witness for C8: two formats named "FMT" that both report `0b0001`; the count is 1 and the
log is the one warning with its full text. -/
theorem C8_Initialize_warning_witness :
    (Tutorial17_MSAA.Initialize { Created := [] } exampleSwapChain (exampleFormat 0b0001)
        (exampleFormat 0b0001) 2 false).1.m_SampleCount = 1 ∧
    (Tutorial17_MSAA.Initialize { Created := [] } exampleSwapChain (exampleFormat 0b0001)
        (exampleFormat 0b0001) 2 false).2 =
      ["FMT + FMT pair does not allow multisampling on this device"] :=
  ⟨((C8_Initialize_warning { Created := [] } exampleSwapChain (exampleFormat 0b0001)
      (exampleFormat 0b0001) 2 false).2.2.2 rfl rfl).1,
    ((C8_Initialize_warning { Created := [] } exampleSwapChain (exampleFormat 0b0001)
      (exampleFormat 0b0001) 2 false).2.2.2 rfl rfl).2.trans (by decide)⟩

/-! ## Building the multisampled targets -/

/-- Claim C2: for every sample count `n > 1` and every output size `w` x `h`,
`CreateMSAARenderTarget` run with `m_SampleCount = n` and a swap chain of that size leaves a
render-target view and a depth-stencil view whose textures both have `SampleCount = n`,
`Width = w` and `Height = h`. -/
theorem C2_CreateMSAARenderTarget_pair (self : Tutorial17_MSAA) (n w h : Nat) (hn : 1 < n)
    (hs : self.m_SampleCount = n) (hw : self.m_pSwapChain.Width = w)
    (hh : self.m_pSwapChain.Height = h) :
    ∃ c d : ITextureView,
      self.CreateMSAARenderTarget.m_pMSColorRTV = some c ∧
      self.CreateMSAARenderTarget.m_pMSDepthDSV = some d ∧
      c.ViewType = .TEXTURE_VIEW_RENDER_TARGET ∧
      d.ViewType = .TEXTURE_VIEW_DEPTH_STENCIL ∧
      c.pTexture.Desc.SampleCount = n ∧ c.pTexture.Desc.Width = w ∧
      c.pTexture.Desc.Height = h ∧
      d.pTexture.Desc.SampleCount = n ∧ d.pTexture.Desc.Width = w ∧
      d.pTexture.Desc.Height = h := by
  have hne : self.m_SampleCount ≠ 1 := by omega
  obtain ⟨c, d, hc, hd, hcv, hdv, _, _, _, h1, h2, h3, h4, h5, h6⟩ :=
    CreateMSAARenderTarget_of_ne_one self hne
  exact ⟨c, d, hc, hd, hcv, hdv, h1.trans hs, h2.trans hw, h3.trans hh, h4.trans hs,
    h5.trans hw, h6.trans hh⟩

/-- Witness for C2: sample count 4 and an 800 x 600 swap chain. -/
theorem C2_CreateMSAARenderTarget_pair_witness :
    ∃ c d : ITextureView,
      (exampleInit 0b0110).CreateMSAARenderTarget.m_pMSColorRTV = some c ∧
      (exampleInit 0b0110).CreateMSAARenderTarget.m_pMSDepthDSV = some d ∧
      c.ViewType = .TEXTURE_VIEW_RENDER_TARGET ∧
      d.ViewType = .TEXTURE_VIEW_DEPTH_STENCIL ∧
      c.pTexture.Desc.SampleCount = 4 ∧ c.pTexture.Desc.Width = 800 ∧
      c.pTexture.Desc.Height = 600 ∧
      d.pTexture.Desc.SampleCount = 4 ∧ d.pTexture.Desc.Width = 800 ∧
      d.pTexture.Desc.Height = 600 :=
  C2_CreateMSAARenderTarget_pair (exampleInit 0b0110) 4 800 600 (by decide) rfl rfl rfl

/-- Counterexample to C3: the state reached from `Initialize` (masks `0b0110`) by a resize
notification and the selection of the entry "1" has sample count 1 and holds the pair built
for 4 samples; `CreateMSAARenderTarget` run in that state leaves the pair held. -/
theorem C3_targets_not_released :
    HostRun (exampleInit 0b0110) [.WindowResize 800 600, .UpdateUI (examplePick 0)] =
      some exampleSingle ∧
    exampleSingle.m_SampleCount = 1 ∧
    exampleSingle.HoldsTargets ∧
    exampleSingle.CreateMSAARenderTarget.HoldsTargets ∧
    ¬ exampleSingle.CreateMSAARenderTarget.HoldsNoTargets ∧
    (exampleSingle.CreateMSAARenderTarget.m_pMSColorRTV.map
      (fun v => v.pTexture.Desc.SampleCount)) = some 4 := by
  refine ⟨rfl, rfl, by decide, by decide, by decide, rfl⟩

/-- Claim C3 as amended: `CreateMSAARenderTarget` run with `m_SampleCount = 1` changes
nothing: it creates no texture and leaves both views as they were, so no target pair is held
afterwards when none was held before; a second call gives the same result. -/
theorem C3_CreateMSAARenderTarget_single (self : Tutorial17_MSAA)
    (h1 : self.m_SampleCount = 1) :
    self.CreateMSAARenderTarget.m_pDevice.Created = self.m_pDevice.Created ∧
    self.CreateMSAARenderTarget.m_pMSColorRTV = self.m_pMSColorRTV ∧
    self.CreateMSAARenderTarget.m_pMSDepthDSV = self.m_pMSDepthDSV ∧
    (self.HoldsNoTargets → self.CreateMSAARenderTarget.HoldsNoTargets) ∧
    self.CreateMSAARenderTarget.CreateMSAARenderTarget = self.CreateMSAARenderTarget := by
  rw [CreateMSAARenderTarget_of_one self h1, CreateMSAARenderTarget_of_one self h1]
  exact ⟨rfl, rfl, rfl, id, rfl⟩

/-- Witness for C3 as amended: the state right after `Initialize` with masks `0b0001`, which
has sample count 1 and holds no targets. -/
theorem C3_CreateMSAARenderTarget_single_witness :
    (exampleInit 0b0001).m_SampleCount = 1 ∧
    (exampleInit 0b0001).HoldsNoTargets ∧
    (exampleInit 0b0001).CreateMSAARenderTarget.m_pDevice.Created = [] ∧
    (exampleInit 0b0001).CreateMSAARenderTarget.HoldsNoTargets :=
  ⟨rfl, by decide,
    (C3_CreateMSAARenderTarget_single (exampleInit 0b0001) rfl).1,
    (C3_CreateMSAARenderTarget_single (exampleInit 0b0001) rfl).2.2.2.1 (by decide)⟩

/-! ## The sample-count selector -/

/-- Counterexample to C9: with the capability mask `0b1110` (bit 0x01 clear) the selector
offers 1, 2, 4 and 8, whereas the values of 1, 2, 4, 8 whose bit is set in the mask are 2, 4
and 8 only. -/
theorem C9_selector_offers_one_unconditionally :
    (exampleInit 0b1110).m_SupportedSampleCounts = 0b1110 ∧
    (exampleInit 0b1110).ComboItems.map Prod.fst = [1, 2, 4, 8] ∧
    [1, 2, 4, 8].filter (fun v => decide ((exampleInit 0b1110).m_SupportedSampleCounts &&& v ≠ 0))
      = [2, 4, 8] ∧
    (exampleInit 0b1110).ComboItems.map Prod.fst ≠
      [1, 2, 4, 8].filter
        (fun v => decide ((exampleInit 0b1110).m_SupportedSampleCounts &&& v ≠ 0)) := by
  refine ⟨rfl, rfl, by decide, by decide⟩

/-- Claim C9 as amended: for every capability mask the selector offers 1 followed by exactly
the values of 2, 4, 8 whose bit is set in the mask, in ascending order; hence the sample count
after a selection is one of 1, 2, 4, 8 and is either 1 or has its bit set in the mask. -/
theorem C9_selector_items (self : Tutorial17_MSAA) :
    self.ComboItems.map Prod.fst =
      1 :: [2, 4, 8].filter (fun v => decide (self.m_SupportedSampleCounts &&& v ≠ 0)) ∧
    (self.ComboItems.map Prod.fst).Pairwise (· < ·) ∧
    (∀ (ui : UIInput) (i : Nat), ui.Begin = true → ui.Combo = some i →
      i < self.ComboItems.length →
      (self.UpdateUI ui).m_SampleCount ∈ [1, 2, 4, 8] ∧
      ((self.UpdateUI ui).m_SampleCount = 1 ∨
        self.m_SupportedSampleCounts &&& (self.UpdateUI ui).m_SampleCount ≠ 0)) := by
  have hv := ComboItems_values self
  have hitems : self.ComboItems.map Prod.fst =
      1 :: [2, 4, 8].filter (fun v => decide (self.m_SupportedSampleCounts &&& v ≠ 0)) := by
    rw [hv]
    by_cases b2 : self.m_SupportedSampleCounts &&& 0x02 ≠ 0 <;>
    by_cases b4 : self.m_SupportedSampleCounts &&& 0x04 ≠ 0 <;>
    by_cases b8 : self.m_SupportedSampleCounts &&& 0x08 ≠ 0 <;>
    simp [List.filter, b2, b4, b8]
  have hmem : ∀ n ∈ self.ComboItems.map Prod.fst,
      n ∈ [1, 2, 4, 8] ∧ (n = 1 ∨ self.m_SupportedSampleCounts &&& n ≠ 0) := by
    intro n hn
    rw [hitems] at hn
    rcases List.mem_cons.mp hn with h1 | hn
    · subst h1; simp
    · rw [List.mem_filter] at hn
      obtain ⟨hin, hbit⟩ := hn
      refine ⟨List.mem_cons_of_mem _ hin, Or.inr ?_⟩
      simpa using hbit
  refine ⟨hitems, ?_, ?_⟩
  · rw [hitems]
    refine List.Pairwise.sublist (List.Sublist.cons₂ 1 (List.filter_sublist _)) ?_
    decide
  · intro ui i hB hC hi
    have hget : self.ComboItems[i]? = some (self.ComboItems[i]) := List.getElem?_eq_getElem hi
    rw [UpdateUI_pick_m_SampleCount self ui i _ hB hC hget]
    apply hmem
    exact List.mem_map_of_mem _ (List.getElem_mem _)

/-- Witness for C9 as amended: with the mask `0b0110` the user picks the entry of index 1,
which is the entry "2". -/
theorem C9_selector_items_witness :
    (exampleInit 0b0110).ComboItems.map Prod.fst = [1, 2, 4] ∧
    ((exampleInit 0b0110).UpdateUI (examplePick 1)).m_SampleCount = 2 ∧
    ((exampleInit 0b0110).UpdateUI (examplePick 1)).m_SampleCount ∈ [1, 2, 4, 8] ∧
    (((exampleInit 0b0110).UpdateUI (examplePick 1)).m_SampleCount = 1 ∨
      (exampleInit 0b0110).m_SupportedSampleCounts &&&
        ((exampleInit 0b0110).UpdateUI (examplePick 1)).m_SampleCount ≠ 0) :=
  ⟨(C9_selector_items (exampleInit 0b0110)).1, rfl,
    ((C9_selector_items (exampleInit 0b0110)).2.2 (examplePick 1) 1 rfl rfl (by decide)).1,
    ((C9_selector_items (exampleInit 0b0110)).2.2 (examplePick 1) 1 rfl rfl (by decide)).2⟩

/-! ## Rendering a frame -/

/-- Counterexample to C5: the state reached from `Initialize` (masks `0b0110`) by a resize
notification and the selection of the entry "1" holds a target pair, and `Render` in that
state returns without any resolve call. -/
theorem C5_no_resolve_with_targets_held :
    HostRun (exampleInit 0b0110) [.WindowResize 800 600, .UpdateUI (examplePick 0)] =
      some exampleSingle ∧
    exampleSingle.HoldsTargets ∧
    exampleSingle.Render.map NumResolveCalls = some 0 := by
  refine ⟨rfl, by decide, rfl⟩

/-- Claim C5 as amended: one call of `Render` returns with exactly one
`ResolveTextureSubresource` call when `m_SampleCount > 1` and a target pair is held, and
returns with no resolve call when `m_SampleCount` is not above 1, whether a pair is held or
not. -/
theorem C5_Render_resolve_calls (self : Tutorial17_MSAA) :
    (1 < self.m_SampleCount → self.HoldsTargets →
      ∃ calls, self.Render = some calls ∧ NumResolveCalls calls = 1) ∧
    (¬ 1 < self.m_SampleCount →
      ∃ calls, self.Render = some calls ∧ NumResolveCalls calls = 0) := by
  constructor
  · intro hn hh
    obtain ⟨c, hc⟩ := Option.isSome_iff_exists.mp hh.1
    obtain ⟨calls, h1, h2, _⟩ := Render_multisampled self c hn hc
    exact ⟨calls, h1, h2⟩
  · intro hn
    obtain ⟨calls, h1, h2, _⟩ := Render_direct self hn
    exact ⟨calls, h1, h2⟩

/-- Witness for C5 as amended: `exampleHeld` has sample count 4 and holds a pair;
`exampleInit 0b0001` has sample count 1 and holds none. -/
theorem C5_Render_resolve_calls_witness :
    (1 < exampleHeld.m_SampleCount ∧ exampleHeld.HoldsTargets ∧
      ∃ calls, exampleHeld.Render = some calls ∧ NumResolveCalls calls = 1) ∧
    (¬ 1 < (exampleInit 0b0001).m_SampleCount ∧
      ∃ calls, (exampleInit 0b0001).Render = some calls ∧ NumResolveCalls calls = 0) :=
  ⟨⟨by decide, by decide, (C5_Render_resolve_calls exampleHeld).1 (by decide) (by decide)⟩,
    ⟨by decide, (C5_Render_resolve_calls (exampleInit 0b0001)).2 (by decide)⟩⟩

/-! ## Reachable states -/

/-- Counterexample to C4, in both directions: right after `Initialize` with masks `0b0110`
the sample count is 4 and no target pair is held; after a resize notification and the
selection of the entry "1" the sample count is 1 and a target pair is held. -/
theorem C4_targets_iff_fails :
    HostRun (exampleInit 0b0110) [] = some (exampleInit 0b0110) ∧
    1 < (exampleInit 0b0110).m_SampleCount ∧
    ¬ (exampleInit 0b0110).HoldsTargets ∧
    HostRun (exampleInit 0b0110) [.WindowResize 800 600, .UpdateUI (examplePick 0)] =
      some exampleSingle ∧
    exampleSingle.HoldsTargets ∧
    ¬ 1 < exampleSingle.m_SampleCount := by
  refine ⟨rfl, by decide, by decide, rfl, by decide, by decide⟩

/-- Claim C4 as amended: in every state reached from `Initialize` by a sequence of
`UpdateUI`, `WindowResize` and `Render` events in which at least one resize notification or
sample-count selection occurs, a target pair is held if `m_SampleCount > 1`. -/
theorem C4_targets_held_when_multisampled (pDevice : IRenderDevice)
    (pSwapChain : SwapChainDesc) (ColorFmtInfo DepthFmtInfo : TextureFormatInfoExt)
    (DepthBufferFormat : TEXTURE_FORMAT) (bRotateGrid : Bool)
    (pre post : List HostEvent) (e : HostEvent) (s s1 : Tutorial17_MSAA)
    (hpre : HostRun (Tutorial17_MSAA.Initialize pDevice pSwapChain ColorFmtInfo DepthFmtInfo
      DepthBufferFormat bRotateGrid).1 pre = some s)
    (he : e.RebuildsTargets s = true)
    (hpost : HostRun s (e :: post) = some s1) :
    HostRun (Tutorial17_MSAA.Initialize pDevice pSwapChain ColorFmtInfo DepthFmtInfo
      DepthBufferFormat bRotateGrid).1 (pre ++ e :: post) = some s1 ∧
    (1 < s1.m_SampleCount → s1.HoldsTargets) := by
  refine ⟨(HostRun_append pre (e :: post) _ s hpre).trans hpost, ?_⟩
  rw [HostRun_cons] at hpost
  cases hs : HostStep s e with
  | none =>
    rw [hs] at hpost
    cases hpost
  | some s2 =>
    rw [hs, Option.some_bind] at hpost
    exact HostRun_invariant (fun t => 1 < t.m_SampleCount → t.HoldsTargets) HoldsTargets_step
      post s2 s1 (HoldsTargets_rebuild_step s e s2 he hs) hpost

/-- Witness for C4 as amended: `Initialize` with masks `0b0110`, a frame of `UpdateUI`
without input, a resize notification, a rendered frame and the selection of the entry "2". -/
theorem C4_targets_held_when_multisampled_witness :
    HostRun (exampleInit 0b0110)
      ([.UpdateUI { Begin := true, Combo := none, Checkbox := false }] ++
        .WindowResize 800 600 :: [.Render, .UpdateUI (examplePick 1)]) = some exampleTwo ∧
    (1 < exampleTwo.m_SampleCount → exampleTwo.HoldsTargets) :=
  C4_targets_held_when_multisampled { Created := [] } exampleSwapChain (exampleFormat 0b0110)
    (exampleFormat 0b0110) 2 false
    [.UpdateUI { Begin := true, Combo := none, Checkbox := false }]
    [.Render, .UpdateUI (examplePick 1)] (.WindowResize 800 600)
    (exampleInit 0b0110) exampleTwo rfl rfl rfl

/-- Claim C10: in every state reached from `Initialize` by a sequence of `UpdateUI` and
`WindowResize` events (such a sequence always runs to its end; `Render` events may be
interleaved), the cube pipeline state held was created with the current `m_SampleCount`, and
every pipeline state that `Render` binds in that state has that sample count. -/
theorem C10_pipeline_matches_sample_count (pDevice : IRenderDevice)
    (pSwapChain : SwapChainDesc) (ColorFmtInfo DepthFmtInfo : TextureFormatInfoExt)
    (DepthBufferFormat : TEXTURE_FORMAT) (bRotateGrid : Bool) (evs : List HostEvent) :
    (HostEvent.Render ∉ evs →
      (HostRun (Tutorial17_MSAA.Initialize pDevice pSwapChain ColorFmtInfo DepthFmtInfo
        DepthBufferFormat bRotateGrid).1 evs).isSome = true) ∧
    (∀ s, HostRun (Tutorial17_MSAA.Initialize pDevice pSwapChain ColorFmtInfo DepthFmtInfo
        DepthBufferFormat bRotateGrid).1 evs = some s →
      s.PSOMatchesSampleCount ∧
      ∀ calls p, s.Render = some calls → DeviceContextCall.SetPipelineState p ∈ calls →
        ∃ pso : IPipelineState, p = some pso ∧ pso.SampleCount = s.m_SampleCount) := by
  refine ⟨HostRun_isSome_of_no_Render evs _, ?_⟩
  intro s hs
  have hP : s.PSOMatchesSampleCount :=
    HostRun_invariant Tutorial17_MSAA.PSOMatchesSampleCount PSOMatchesSampleCount_step evs _ s
      (PSOMatchesSampleCount_CreateCubePSO _) hs
  refine ⟨hP, ?_⟩
  intro calls p hr hp
  obtain ⟨pso, h1, h2⟩ := hP
  exact ⟨pso, (Render_pipeline s calls hr p hp).trans h1, h2⟩

/-- Witness for C10: `Initialize` with masks `0b0110`, a resize notification and the
selection of the entry "2"; the pipeline state then has sample count 2. -/
theorem C10_pipeline_matches_sample_count_witness :
    (HostRun (exampleInit 0b0110) [.WindowResize 800 600, .UpdateUI (examplePick 1)]).isSome
      = true ∧
    exampleTwo.m_SampleCount = 2 ∧
    exampleTwo.PSOMatchesSampleCount :=
  ⟨(C10_pipeline_matches_sample_count { Created := [] } exampleSwapChain (exampleFormat 0b0110)
      (exampleFormat 0b0110) 2 false [.WindowResize 800 600, .UpdateUI (examplePick 1)]).1
      (by decide),
    rfl,
    ((C10_pipeline_matches_sample_count { Created := [] } exampleSwapChain
      (exampleFormat 0b0110) (exampleFormat 0b0110) 2 false
      [.WindowResize 800 600, .UpdateUI (examplePick 1)]).2 exampleTwo rfl).1⟩

/-! ## Replacing the targets -/

/-- Counterexample to C6: the state `exampleSingle`, reached from `Initialize` (masks
`0b0110`) by a resize notification at 800 x 600 and the selection of the entry "1", holds a
target pair.  A resize notification at 1024 x 768 creates no texture and leaves the 800 x 600
pair held; the selection of the entry "2" after it builds a pair that is 1024 wide, not 800 as
the pair held before. -/
theorem C6_stale_targets_not_rebuilt :
    HostRun (exampleInit 0b0110) [.WindowResize 800 600, .UpdateUI (examplePick 0)] =
      some exampleSingle ∧
    exampleSingle.HoldsTargets ∧
    HostStep exampleSingle (.WindowResize 1024 768) = some exampleStale ∧
    exampleStale.m_pDevice.Created.length = exampleSingle.m_pDevice.Created.length ∧
    exampleStale.m_pMSColorRTV = exampleSingle.m_pMSColorRTV ∧
    exampleStale.m_pMSColorRTV.map (fun v => v.pTexture.Desc.Width) = some 800 ∧
    exampleStale.m_pMSDepthDSV.map (fun v => v.pTexture.Desc.Width) = some 800 ∧
    exampleStale.ComboItems[1]? = some (2, "2") ∧
    (exampleStale.UpdateUI (examplePick 1)).m_pMSColorRTV.map
      (fun v => v.pTexture.Desc.Width) = some 1024 := by
  refine ⟨rfl, by decide, rfl, rfl, rfl, rfl, rfl, rfl, rfl⟩

/-- Claim C6 as amended: for every state that holds a target pair, (a) when the user selects
a sample count `n > 1` in `UpdateUI`, both held views are replaced by views of the two
textures the device creates in that call, which have `SampleCount = n` and the width and
height of the swap chain; these are the width and height of the old pair whenever the old
pair had the size of the swap chain; (b) when `m_SampleCount > 1` and a resize notification
for `w` x `h` arrives, the pair is replaced by views of two newly created textures of width
`w` and height `h`, with `m_SampleCount` and the sample count of the textures unchanged. -/
theorem C6_targets_replaced (self : Tutorial17_MSAA) (c d : ITextureView)
    (hc : self.m_pMSColorRTV = some c) (hd : self.m_pMSDepthDSV = some d) :
    (∀ (ui : UIInput) (i n : Nat) (label : String),
      ui.Begin = true → ui.Combo = some i → self.ComboItems[i]? = some (n, label) → 1 < n →
      ∃ c1 d1 : ITextureView,
        (self.UpdateUI ui).m_pMSColorRTV = some c1 ∧
        (self.UpdateUI ui).m_pMSDepthDSV = some d1 ∧
        (self.UpdateUI ui).m_SampleCount = n ∧
        (self.UpdateUI ui).m_pSwapChain = self.m_pSwapChain ∧
        c1.ViewType = .TEXTURE_VIEW_RENDER_TARGET ∧
        d1.ViewType = .TEXTURE_VIEW_DEPTH_STENCIL ∧
        c1.pTexture.Id = self.m_pDevice.Created.length ∧
        d1.pTexture.Id = self.m_pDevice.Created.length + 1 ∧
        (self.UpdateUI ui).m_pDevice.Created =
          self.m_pDevice.Created ++ [c1.pTexture.Desc, d1.pTexture.Desc] ∧
        (c.pTexture.Id < self.m_pDevice.Created.length →
          (self.UpdateUI ui).m_pMSColorRTV ≠ self.m_pMSColorRTV) ∧
        (d.pTexture.Id < self.m_pDevice.Created.length →
          (self.UpdateUI ui).m_pMSDepthDSV ≠ self.m_pMSDepthDSV) ∧
        c1.pTexture.Desc.SampleCount = n ∧ d1.pTexture.Desc.SampleCount = n ∧
        c1.pTexture.Desc.Width = self.m_pSwapChain.Width ∧
        c1.pTexture.Desc.Height = self.m_pSwapChain.Height ∧
        d1.pTexture.Desc.Width = self.m_pSwapChain.Width ∧
        d1.pTexture.Desc.Height = self.m_pSwapChain.Height ∧
        (c.pTexture.Desc.Width = self.m_pSwapChain.Width →
          c1.pTexture.Desc.Width = c.pTexture.Desc.Width) ∧
        (c.pTexture.Desc.Height = self.m_pSwapChain.Height →
          c1.pTexture.Desc.Height = c.pTexture.Desc.Height) ∧
        (d.pTexture.Desc.Width = self.m_pSwapChain.Width →
          d1.pTexture.Desc.Width = d.pTexture.Desc.Width) ∧
        (d.pTexture.Desc.Height = self.m_pSwapChain.Height →
          d1.pTexture.Desc.Height = d.pTexture.Desc.Height)) ∧
    (∀ w h : Nat, 1 < self.m_SampleCount →
      ∃ (s1 : Tutorial17_MSAA) (c1 d1 : ITextureView),
        HostStep self (.WindowResize w h) = some s1 ∧
        s1.m_SampleCount = self.m_SampleCount ∧
        s1.m_pMSColorRTV = some c1 ∧ s1.m_pMSDepthDSV = some d1 ∧
        c1.pTexture.Id = self.m_pDevice.Created.length ∧
        d1.pTexture.Id = self.m_pDevice.Created.length + 1 ∧
        s1.m_pDevice.Created = self.m_pDevice.Created ++ [c1.pTexture.Desc, d1.pTexture.Desc] ∧
        (c.pTexture.Id < self.m_pDevice.Created.length →
          s1.m_pMSColorRTV ≠ self.m_pMSColorRTV) ∧
        (d.pTexture.Id < self.m_pDevice.Created.length →
          s1.m_pMSDepthDSV ≠ self.m_pMSDepthDSV) ∧
        c1.pTexture.Desc.SampleCount = self.m_SampleCount ∧
        d1.pTexture.Desc.SampleCount = self.m_SampleCount ∧
        c1.pTexture.Desc.Width = w ∧ c1.pTexture.Desc.Height = h ∧
        d1.pTexture.Desc.Width = w ∧ d1.pTexture.Desc.Height = h) := by
  constructor
  · intro ui i n label hB hC hi hn
    rw [UpdateUI_pick self ui i (n, label) hB hC hi]
    obtain ⟨c1, d1, g1, g2, v1, v2, g5, g6, g7, g8, g9, g10, g11, g12, g13⟩ :=
      CreateMSAARenderTarget_of_ne_one
        (Tutorial17_MSAA.CreateCubePSO { self with m_SampleCount := n })
        (show n ≠ 1 by omega)
    refine ⟨c1, d1, g1, g2, (CreateMSAARenderTarget_fields _).1,
      (CreateMSAARenderTarget_fields _).2.2.1, v1, v2, g5, g6, g7, ?_, ?_, g8, g11,
      g9, g10, g12, g13, fun hcw => g9.trans hcw.symm, fun hch => g10.trans hch.symm,
      fun hdw => g12.trans hdw.symm, fun hdh => g13.trans hdh.symm⟩
    · intro hlt heq
      have e1 : some c1 = some c := g1.symm.trans (heq.trans hc)
      have e2 : c1.pTexture.Id = self.m_pDevice.Created.length := g5
      rw [Option.some.injEq] at e1
      rw [e1] at e2
      omega
    · intro hlt heq
      have e1 : some d1 = some d := g2.symm.trans (heq.trans hd)
      have e2 : d1.pTexture.Id = self.m_pDevice.Created.length + 1 := g6
      rw [Option.some.injEq] at e1
      rw [e1] at e2
      omega
  · intro w h hn
    obtain ⟨c1, d1, g1, g2, _, _, g5, g6, g7, g8, g9, g10, g11, g12, g13⟩ :=
      CreateMSAARenderTarget_of_ne_one
        { self with m_pSwapChain := { self.m_pSwapChain with Width := w, Height := h } }
        (show self.m_SampleCount ≠ 1 by omega)
    refine ⟨_, c1, d1, rfl, (CreateMSAARenderTarget_fields _).1, g1, g2, g5, g6, g7, ?_, ?_,
      g8, g11, g9, g10, g12, g13⟩
    · intro hlt heq
      have e1 : some c1 = some c := g1.symm.trans (heq.trans hc)
      have e2 : c1.pTexture.Id = self.m_pDevice.Created.length := g5
      rw [Option.some.injEq] at e1
      rw [e1] at e2
      omega
    · intro hlt heq
      have e1 : some d1 = some d := g2.symm.trans (heq.trans hd)
      have e2 : d1.pTexture.Id = self.m_pDevice.Created.length + 1 := g6
      rw [Option.some.injEq] at e1
      rw [e1] at e2
      omega

/-- Witness for C6 as amended.  `exampleHeld` holds an 800 x 600 pair for 4 samples and the
swap chain is 800 x 600: the selection of the entry "2" replaces the pair by a 2-sample pair
of the same size, and a resize notification for 1024 x 768 replaces it by a 4-sample pair of
that size.  `exampleStale` holds the 800 x 600 pair for 4 samples while the swap chain is
1024 x 768: the selection of the entry "2" replaces the pair by a 2-sample pair of
1024 x 768. -/
theorem C6_targets_replaced_witness :
    (∃ c1 d1 : ITextureView,
      (exampleHeld.UpdateUI (examplePick 1)).m_pMSColorRTV = some c1 ∧
      (exampleHeld.UpdateUI (examplePick 1)).m_pMSDepthDSV = some d1 ∧
      (exampleHeld.UpdateUI (examplePick 1)).m_SampleCount = 2 ∧
      c1.pTexture.Id = 2 ∧ d1.pTexture.Id = 3 ∧
      (exampleHeld.UpdateUI (examplePick 1)).m_pMSColorRTV ≠ exampleHeld.m_pMSColorRTV ∧
      (exampleHeld.UpdateUI (examplePick 1)).m_pMSDepthDSV ≠ exampleHeld.m_pMSDepthDSV ∧
      c1.pTexture.Desc.SampleCount = 2 ∧ d1.pTexture.Desc.SampleCount = 2 ∧
      c1.pTexture.Desc.Width = 800 ∧ c1.pTexture.Desc.Height = 600 ∧
      d1.pTexture.Desc.Width = 800 ∧ d1.pTexture.Desc.Height = 600) ∧
    (∃ (s1 : Tutorial17_MSAA) (c1 d1 : ITextureView),
      HostStep exampleHeld (.WindowResize 1024 768) = some s1 ∧
      s1.m_SampleCount = 4 ∧
      s1.m_pMSColorRTV = some c1 ∧ s1.m_pMSDepthDSV = some d1 ∧
      c1.pTexture.Id = 2 ∧ d1.pTexture.Id = 3 ∧
      c1.pTexture.Desc.SampleCount = 4 ∧ d1.pTexture.Desc.SampleCount = 4 ∧
      c1.pTexture.Desc.Width = 1024 ∧ c1.pTexture.Desc.Height = 768 ∧
      d1.pTexture.Desc.Width = 1024 ∧ d1.pTexture.Desc.Height = 768) ∧
    (∃ c1 d1 : ITextureView,
      (exampleStale.UpdateUI (examplePick 1)).m_pMSColorRTV = some c1 ∧
      (exampleStale.UpdateUI (examplePick 1)).m_pMSDepthDSV = some d1 ∧
      (exampleStale.UpdateUI (examplePick 1)).m_SampleCount = 2 ∧
      c1.pTexture.Id = 2 ∧ d1.pTexture.Id = 3 ∧
      (exampleStale.UpdateUI (examplePick 1)).m_pMSColorRTV ≠ exampleStale.m_pMSColorRTV ∧
      (exampleStale.UpdateUI (examplePick 1)).m_pMSDepthDSV ≠ exampleStale.m_pMSDepthDSV ∧
      c1.pTexture.Desc.SampleCount = 2 ∧ d1.pTexture.Desc.SampleCount = 2 ∧
      c1.pTexture.Desc.Width = 1024 ∧ c1.pTexture.Desc.Height = 768 ∧
      d1.pTexture.Desc.Width = 1024 ∧ d1.pTexture.Desc.Height = 768) := by
  refine ⟨?_, ?_, ?_⟩
  · obtain ⟨c1, d1, g1, g2, g3, _, _, _, g4, g5, _, n1, n2, g6, g7, _, _, _, _, e1, e2, e3,
        e4⟩ :=
      (C6_targets_replaced exampleHeld _ _ rfl rfl).1 (examplePick 1) 1 2 "2" rfl rfl rfl
        (by decide)
    exact ⟨c1, d1, g1, g2, g3, g4, g5, n1 (by decide), n2 (by decide), g6, g7, e1 rfl, e2 rfl,
      e3 rfl, e4 rfl⟩
  · obtain ⟨s1, c1, d1, g0, g1, g2, g3, g4, g5, _, _, _, g6, g7, g8, g9, g10, g11⟩ :=
      (C6_targets_replaced exampleHeld _ _ rfl rfl).2 1024 768 (by decide)
    exact ⟨s1, c1, d1, g0, g1, g2, g3, g4, g5, g6, g7, g8, g9, g10, g11⟩
  · obtain ⟨c1, d1, g1, g2, g3, _, _, _, g4, g5, _, n1, n2, g6, g7, w1, w2, w3, w4, _⟩ :=
      (C6_targets_replaced exampleStale _ _ rfl rfl).1 (examplePick 1) 1 2 "2" rfl rfl rfl
        (by decide)
    exact ⟨c1, d1, g1, g2, g3, g4, g5, n1 (by decide), n2 (by decide), g6, g7, w1, w2, w3, w4⟩

end Diligent
